import Mathlib

/-!
# cartographer: promise introspection (`src/cartographer.c`)

The C file defines three functions, `nameEnv`, `is_promise` and
`promise_was_forced`, on top of the host interpreter's embedding interface
(`isSymbol`, `length`, `isEnvironment`, `findVar`, `TYPEOF`, `PRVALUE`,
`allocVector`, `PROTECT`, `UNPROTECT`, `error`).  The three functions are
embedded from the C source as state-passing functions over a host state; the
host interface they call is not part of the repository and is modelled
separately below.
-/

namespace Cartographer

/-! ## Host objects -/

/-- Discriminant tag of a host object. -/
inductive SEXPTYPE where
  | NILSXP
  | SYMSXP
  | LISTSXP
  | CLOSXP
  | ENVSXP
  | PROMSXP
  | LANGSXP
  | BUILTINSXP
  | LGLSXP
  | INTSXP
  | STRSXP
  | VECSXP
  deriving DecidableEq, Repr

/-- Pointer to a host object: the two reserved sentinels, or a heap cell. -/
inductive SEXP where
  | R_NilValue
  | R_UnboundValue
  | ref (addr : Nat)
  deriving DecidableEq, Repr

/-- Variable table of one environment: symbol pointer and bound object. -/
abbrev Frame := List (SEXP × SEXP)

/-- Host object.  An environment carries its own variable table and the
variable tables of its enclosing environments, nearest first.  A promise
carries its cached-result slot, its expression and its environment. -/
inductive Obj where
  | nil
  | sym (pname : String)
  | list (elems : List SEXP)
  | lang (elems : List SEXP)
  | clo (formals body env : SEXP)
  | builtin (name : String)
  | env (frame : Frame) (enclos : List Frame)
  | prom (value expr env : SEXP)
  | lgl (xs : List Bool)
  | int (xs : List Int)
  | str (xs : List String)
  | vec (xs : List SEXP)
  deriving DecidableEq, Repr

/-- Host state: the object heap, the protection stack, and the number of
variable lookups (`findVar` calls) performed so far. -/
structure Host where
  heap : List Obj
  ppstack : List SEXP
  lookups : Nat
  deriving DecidableEq, Repr

/-- Condition signalled by a non-local exit. -/
inductive RCondition where
  | InvalidArgument (message : String)
  | NameNotFound (symbol : SEXP)
  deriving DecidableEq, Repr

/-- Outcome of a call: a value, a signalled condition, or the undefined
read of the cached-result slot of an object that is not a promise. -/
inductive Outcome (α : Type) where
  | ok (value : α)
  | error (cond : RCondition)
  | undefined
  deriving DecidableEq, Repr

/-! ## Host interface -/

/-- Modelled from the spec: the object a pointer designates.  The nil
sentinel is the nil object, the unbound sentinel is a symbol without a
print name, and a pointer past the end of the heap reads as nil. -/
def deref (h : Host) : SEXP → Obj
  | SEXP.R_NilValue => Obj.nil
  | SEXP.R_UnboundValue => Obj.sym ""
  | SEXP.ref a => h.heap.getD a Obj.nil

/-- Modelled from the spec: the host accessor `TYPEOF`, the discriminant
tag of an object. -/
def TYPEOF (h : Host) (x : SEXP) : SEXPTYPE :=
  match deref h x with
  | Obj.nil => SEXPTYPE.NILSXP
  | Obj.sym _ => SEXPTYPE.SYMSXP
  | Obj.list _ => SEXPTYPE.LISTSXP
  | Obj.lang _ => SEXPTYPE.LANGSXP
  | Obj.clo _ _ _ => SEXPTYPE.CLOSXP
  | Obj.builtin _ => SEXPTYPE.BUILTINSXP
  | Obj.env _ _ => SEXPTYPE.ENVSXP
  | Obj.prom _ _ _ => SEXPTYPE.PROMSXP
  | Obj.lgl _ => SEXPTYPE.LGLSXP
  | Obj.int _ => SEXPTYPE.INTSXP
  | Obj.str _ => SEXPTYPE.STRSXP
  | Obj.vec _ => SEXPTYPE.VECSXP

/-- Modelled from the spec: the host predicate `isSymbol`. -/
def isSymbol (h : Host) (x : SEXP) : Bool :=
  TYPEOF h x == SEXPTYPE.SYMSXP

/-- Modelled from the spec: the host predicate `isEnvironment`. -/
def isEnvironment (h : Host) (x : SEXP) : Bool :=
  TYPEOF h x == SEXPTYPE.ENVSXP

/-- Modelled from the spec: the host function `length`: number of elements
of a vector or list, number of variables of an environment, 0 for nil and
1 for every other object. -/
def length (h : Host) (x : SEXP) : Nat :=
  match deref h x with
  | Obj.nil => 0
  | Obj.list elems => elems.length
  | Obj.lang elems => elems.length
  | Obj.env frame _ => frame.length
  | Obj.lgl xs => xs.length
  | Obj.int xs => xs.length
  | Obj.str xs => xs.length
  | Obj.vec xs => xs.length
  | _ => 1

/-- Modelled from the spec: lookup of a symbol in one variable table. -/
def findVarInFrame : Frame → SEXP → Option SEXP
  | [], _ => none
  | (tag, value) :: rest, symbol =>
    if tag = symbol then some value else findVarInFrame rest symbol

/-- Modelled from the spec: lookup of a symbol through a chain of variable
tables, nearest first. -/
def findVarLoop : List Frame → SEXP → Option SEXP
  | [], _ => none
  | frame :: enclos, symbol =>
    match findVarInFrame frame symbol with
    | some value => some value
    | none => findVarLoop enclos symbol

/-- Modelled from the spec: the host lookup `findVar`: variable lookup by
name through the environment and its enclosing scopes, returning the bound
object as it is (a promise is not forced) and failing with `NameNotFound`
when no scope of the chain binds the name.  Every call is counted. -/
def findVar (h : Host) (symbol rho : SEXP) : Outcome SEXP × Host :=
  let h1 : Host := Host.mk h.heap h.ppstack (h.lookups + 1)
  match deref h rho with
  | Obj.env frame enclos =>
    match findVarLoop (frame :: enclos) symbol with
    | some value => (Outcome.ok value, h1)
    | none => (Outcome.error (RCondition.NameNotFound symbol), h1)
  | _ =>
    (Outcome.error (RCondition.InvalidArgument "argument to findVar is not an environment"), h1)

/-- Modelled from the spec: the host accessor `PRVALUE`, the cached-result
slot of a promise.  The read is not defined on any other object. -/
def PRVALUE (h : Host) (x : SEXP) : Option SEXP :=
  match deref h x with
  | Obj.prom value _ _ => some value
  | _ => none

/-- Modelled from the spec: the host allocator `allocVector`: a fresh
vector at the end of the heap. -/
def allocVector (h : Host) (type : SEXPTYPE) (n : Nat) : SEXP × Host :=
  let cell : Obj :=
    match type with
    | SEXPTYPE.LGLSXP => Obj.lgl (List.replicate n false)
    | SEXPTYPE.INTSXP => Obj.int (List.replicate n 0)
    | SEXPTYPE.STRSXP => Obj.str (List.replicate n "")
    | _ => Obj.vec (List.replicate n SEXP.R_NilValue)
  (SEXP.ref h.heap.length, Host.mk (h.heap ++ [cell]) h.ppstack h.lookups)

/-- Modelled from the spec: the host call `PROTECT`. -/
def PROTECT (h : Host) (x : SEXP) : Host :=
  Host.mk h.heap (x :: h.ppstack) h.lookups

/-- Modelled from the spec: the host call `UNPROTECT`. -/
def UNPROTECT (h : Host) (n : Nat) : Host :=
  Host.mk h.heap (h.ppstack.drop n) h.lookups

/-- Modelled from the spec: the store `LOGICAL(x)[i] = b`. -/
def SET_LOGICAL (h : Host) (x : SEXP) (i : Nat) (b : Bool) : Host :=
  match x, deref h x with
  | SEXP.ref a, Obj.lgl xs => Host.mk (h.heap.set a (Obj.lgl (xs.set i b))) h.ppstack h.lookups
  | _, _ => h

/-- Modelled from the spec: the host call `error`: a non-local exit with
the message; the spec names the condition `InvalidArgument`. -/
def error (h : Host) (message : String) : Outcome SEXP × Host :=
  (Outcome.error (RCondition.InvalidArgument message), h)

/-- Modelled from the spec: forcing, the act of evaluating a deferred
computation and storing its result in the cached-result slot; a promise is
evaluated at most once. -/
def forcePromise (h : Host) (p value : SEXP) : Host :=
  match p, deref h p with
  | SEXP.ref a, Obj.prom slot expr _ =>
    if slot = SEXP.R_UnboundValue then
      Host.mk (h.heap.set a (Obj.prom value expr SEXP.R_NilValue)) h.ppstack h.lookups
    else h
  | _, _ => h

/-! ## The C functions -/

/-- `nameEnv` (cartographer.c lines 6-13). -/
def nameEnv (h : Host) (name env : SEXP) : Outcome SEXP × Host :=
  if !isSymbol h name || length h name != 1 then
    error h "name is not a single symbol"
  else if !isEnvironment h env then
    error h "env should be an environment"
  else
    findVar h name env

/-- `is_promise` (cartographer.c lines 15-20). -/
def is_promise (h : Host) (name env : SEXP) : Outcome SEXP × Host :=
  let a := allocVector h SEXPTYPE.LGLSXP 1
  let result := a.1
  let h1 := PROTECT a.2 result
  match nameEnv h1 name env with
  | (Outcome.ok v, h2) =>
    let h3 := SET_LOGICAL h2 result 0 (TYPEOF h2 v == SEXPTYPE.PROMSXP)
    let h4 := UNPROTECT h3 1
    (Outcome.ok result, h4)
  | (Outcome.error c, h2) => (Outcome.error c, h2)
  | (Outcome.undefined, h2) => (Outcome.undefined, h2)

/-- `promise_was_forced` (cartographer.c lines 22-27). -/
def promise_was_forced (h : Host) (name env : SEXP) : Outcome SEXP × Host :=
  let a := allocVector h SEXPTYPE.LGLSXP 1
  let result := a.1
  let h1 := PROTECT a.2 result
  match nameEnv h1 name env with
  | (Outcome.ok v, h2) =>
    match PRVALUE h2 v with
    | some slot =>
      let h3 := SET_LOGICAL h2 result 0 (slot != SEXP.R_UnboundValue)
      let h4 := UNPROTECT h3 1
      (Outcome.ok result, h4)
    | none => (Outcome.undefined, h2)
  | (Outcome.error c, h2) => (Outcome.error c, h2)
  | (Outcome.undefined, h2) => (Outcome.undefined, h2)

/-! ## Observations and host steps -/

/-- The value `LOGICAL(x)[0]` of a one-element logical vector. -/
def LOGICAL0 (h : Host) (x : SEXP) : Option Bool :=
  match deref h x with
  | Obj.lgl [b] => some b
  | _ => none

/-- What the caller sees of a call: the logical it returned, the condition
it signalled, or the undefined slot read. -/
def observe (r : Outcome SEXP × Host) : Outcome (Option Bool) :=
  match r.1 with
  | Outcome.ok x => Outcome.ok (LOGICAL0 r.2 x)
  | Outcome.error c => Outcome.error c
  | Outcome.undefined => Outcome.undefined

/-- One step of the host: forcing a promise, or a call of one of the two
exported functions. -/
inductive Action where
  | force (p value : SEXP)
  | callIsPromise (name env : SEXP)
  | callPromiseWasForced (name env : SEXP)
  deriving DecidableEq, Repr

/-- State after one host step. -/
def step (h : Host) : Action → Host
  | Action.force p value => forcePromise h p value
  | Action.callIsPromise name env => (is_promise h name env).2
  | Action.callPromiseWasForced name env => (promise_was_forced h name env).2

/-- State after a sequence of host steps. -/
def run (h : Host) (actions : List Action) : Host :=
  actions.foldl step h

/-- State in which both exported functions call `nameEnv`: the result
vector has been allocated and protected. -/
def entry (h : Host) : Host :=
  PROTECT (allocVector h SEXPTYPE.LGLSXP 1).2 (allocVector h SEXPTYPE.LGLSXP 1).1

/-! ## Sample host state -/

/-- Sample heap: symbols `x`, `y`, `z`, an integer, an unforced promise, a
forced promise, a function, a global environment binding `y` and `z`, a
local environment binding `x` and `y`, a character string, a list of two
symbols, and a symbol `w` that no environment binds. -/
def sampleHost : Host :=
  Host.mk
    [ Obj.sym "x",                                             -- 0
      Obj.sym "y",                                             -- 1
      Obj.sym "z",                                             -- 2
      Obj.int [42],                                            -- 3
      Obj.prom SEXP.R_UnboundValue (SEXP.ref 0) (SEXP.ref 7),  -- 4
      Obj.prom (SEXP.ref 3) (SEXP.ref 0) SEXP.R_NilValue,      -- 5
      Obj.clo SEXP.R_NilValue (SEXP.ref 0) (SEXP.ref 7),       -- 6
      Obj.env [(SEXP.ref 1, SEXP.ref 5), (SEXP.ref 2, SEXP.ref 6)] [],   -- 7
      Obj.env [(SEXP.ref 0, SEXP.ref 4), (SEXP.ref 1, SEXP.ref 3)]
        [[(SEXP.ref 1, SEXP.ref 5), (SEXP.ref 2, SEXP.ref 6)]],          -- 8
      Obj.str ["x"],                                           -- 9
      Obj.vec [SEXP.ref 0, SEXP.ref 1],                        -- 10
      Obj.sym "w" ]                                            -- 11
    [] 0

/-! ## Lemmas on the host interface -/

theorem entry_eq (h : Host) :
    entry h = Host.mk (h.heap ++ [Obj.lgl [false]])
      (SEXP.ref h.heap.length :: h.ppstack) h.lookups := rfl

/-- A pointer read after one logical vector was appended to the heap: the
same object, or the new vector where the pointer was past the end. -/
theorem deref_grow_cases (h k : Host) (xs : List Bool)
    (hk : k.heap = h.heap ++ [Obj.lgl xs]) (x : SEXP) :
    deref k x = deref h x ∨ (deref h x = Obj.nil ∧ deref k x = Obj.lgl xs) := by
  cases x with
  | R_NilValue => exact Or.inl rfl
  | R_UnboundValue => exact Or.inl rfl
  | ref a =>
    rcases Nat.lt_trichotomy a h.heap.length with hlt | heq | hgt
    · left
      simp [deref, hk, List.getElem?_append_left hlt]
    · right
      subst heq
      simp [deref, hk]
    · left
      have h1 : h.heap.length ≤ a := Nat.le_of_lt hgt
      have h2 : (h.heap ++ [Obj.lgl xs]).length ≤ a := by simp; omega
      simp only [deref, hk]
      rw [List.getD_eq_default _ _ h1, List.getD_eq_default _ _ h2]

theorem deref_grow_of_valid (h k : Host) (xs : List Bool)
    (hk : k.heap = h.heap ++ [Obj.lgl xs]) (x : SEXP) (hx : deref h x ≠ Obj.nil) :
    deref k x = deref h x := by
  rcases deref_grow_cases h k xs hk x with hc | ⟨hn, _⟩
  · exact hc
  · exact absurd hn hx

theorem isSymbol_grow (h k : Host) (xs : List Bool)
    (hk : k.heap = h.heap ++ [Obj.lgl xs]) (x : SEXP) : isSymbol k x = isSymbol h x := by
  rcases deref_grow_cases h k xs hk x with hc | ⟨hn, hl⟩
  · simp [isSymbol, TYPEOF, hc]
  · simp [isSymbol, TYPEOF, hn, hl]

theorem isEnvironment_grow (h k : Host) (xs : List Bool)
    (hk : k.heap = h.heap ++ [Obj.lgl xs]) (x : SEXP) :
    isEnvironment k x = isEnvironment h x := by
  rcases deref_grow_cases h k xs hk x with hc | ⟨hn, hl⟩
  · simp [isEnvironment, TYPEOF, hc]
  · simp [isEnvironment, TYPEOF, hn, hl]

theorem isPromise_grow (h k : Host) (xs : List Bool)
    (hk : k.heap = h.heap ++ [Obj.lgl xs]) (x : SEXP) :
    (TYPEOF k x == SEXPTYPE.PROMSXP) = (TYPEOF h x == SEXPTYPE.PROMSXP) := by
  rcases deref_grow_cases h k xs hk x with hc | ⟨hn, hl⟩
  · simp [TYPEOF, hc]
  · simp [TYPEOF, hn, hl]

theorem PRVALUE_grow (h k : Host) (xs : List Bool)
    (hk : k.heap = h.heap ++ [Obj.lgl xs]) (x : SEXP) : PRVALUE k x = PRVALUE h x := by
  rcases deref_grow_cases h k xs hk x with hc | ⟨hn, hl⟩
  · simp [PRVALUE, hc]
  · simp [PRVALUE, hn, hl]

theorem check_grow (h k : Host) (xs : List Bool)
    (hk : k.heap = h.heap ++ [Obj.lgl xs]) (x : SEXP) :
    (!isSymbol k x || length k x != 1) = (!isSymbol h x || length h x != 1) := by
  rcases deref_grow_cases h k xs hk x with hc | ⟨hn, hl⟩
  · simp [isSymbol, TYPEOF, length, hc]
  · simp [isSymbol, TYPEOF, length, hn, hl]

/-- On a symbol `length` is 1, so the second half of the name check of
`nameEnv` never fires on its own. -/
theorem length_of_isSymbol (h : Host) (x : SEXP) (hs : isSymbol h x = true) :
    length h x = 1 := by
  unfold isSymbol TYPEOF at hs
  unfold length
  split at hs <;> simp_all

/-! ## Lemmas on `nameEnv` -/

theorem nameEnv_of_bad_name (h : Host) (name env : SEXP)
    (hbad : ¬ (isSymbol h name = true ∧ length h name = 1)) :
    nameEnv h name env
      = (Outcome.error (RCondition.InvalidArgument "name is not a single symbol"), h) := by
  have hc : (!isSymbol h name || length h name != 1) = true := by
    by_cases hs : isSymbol h name = true
    · have hl : length h name ≠ 1 := fun hl => hbad ⟨hs, hl⟩
      simp [hs, hl]
    · simp [hs]
  simp [nameEnv, hc, error]

theorem nameEnv_of_bad_env (h : Host) (name env : SEXP)
    (hs : isSymbol h name = true) (hl : length h name = 1)
    (henv : isEnvironment h env = false) :
    nameEnv h name env
      = (Outcome.error (RCondition.InvalidArgument "env should be an environment"), h) := by
  simp [nameEnv, hs, hl, henv, error]

theorem nameEnv_of_env (h : Host) (name env : SEXP) (frame : Frame) (enclos : List Frame)
    (hs : isSymbol h name = true) (henv : deref h env = Obj.env frame enclos) :
    nameEnv h name env
      = (match findVarLoop (frame :: enclos) name with
         | some value => Outcome.ok value
         | none => Outcome.error (RCondition.NameNotFound name),
         Host.mk h.heap h.ppstack (h.lookups + 1)) := by
  have hl := length_of_isSymbol h name hs
  have he : isEnvironment h env = true := by simp [isEnvironment, TYPEOF, henv]
  simp only [nameEnv, hs, hl, he, findVar, henv]
  cases findVarLoop (frame :: enclos) name <;> simp

theorem isEnvironment_iff (h : Host) (env : SEXP) :
    isEnvironment h env = true ↔ ∃ frame enclos, deref h env = Obj.env frame enclos := by
  unfold isEnvironment TYPEOF
  constructor
  · intro hE
    split at hE <;> simp_all
  · rintro ⟨frame, enclos, hd⟩
    simp [hd]

/-- The outcome of `nameEnv` is the same after one logical vector was
appended to the heap. -/
theorem nameEnv_outcome_grow (h k : Host) (xs : List Bool)
    (hk : k.heap = h.heap ++ [Obj.lgl xs]) (name env : SEXP) :
    (nameEnv k name env).1 = (nameEnv h name env).1 := by
  unfold nameEnv
  rw [check_grow h k xs hk, isEnvironment_grow h k xs hk]
  by_cases h1 : (!isSymbol h name || length h name != 1) = true
  · simp [h1, error]
  · by_cases h2 : (!isEnvironment h env) = true
    · simp [h1, h2, error]
    · simp only [h1, h2, if_false]
      have he : deref h env ≠ Obj.nil := by
        intro hn
        simp [isEnvironment, TYPEOF, hn] at h2
      unfold findVar
      rw [deref_grow_of_valid h k xs hk env he]
      cases hd : deref h env <;> simp
      split <;> simp

/-- Result of `nameEnv` in the state where the result vector is allocated:
the outcome and the lookup count are those of the call in the state before
the allocation. -/
theorem nameEnv_entry (h : Host) (name env : SEXP) :
    nameEnv (entry h) name env
      = ((nameEnv h name env).1,
         Host.mk (h.heap ++ [Obj.lgl [false]]) (SEXP.ref h.heap.length :: h.ppstack)
           (nameEnv h name env).2.lookups) := by
  unfold nameEnv
  rw [check_grow h (entry h) [false] rfl, isEnvironment_grow h (entry h) [false] rfl]
  by_cases h1 : (!isSymbol h name || length h name != 1) = true
  · simp only [h1, if_true, error, entry_eq]
  · by_cases h2 : (!isEnvironment h env) = true
    · simp [h1, h2, error, entry_eq]
    · simp only [h1, h2, if_false]
      have he : deref h env ≠ Obj.nil := by
        intro hn
        simp [isEnvironment, TYPEOF, hn] at h2
      unfold findVar
      rw [deref_grow_of_valid h (entry h) [false] rfl env he]
      cases hd : deref h env <;> simp [entry_eq]
      split <;> simp

/-! ## The two exported functions in closed form -/

/-- Closed form of `is_promise`: on a successful lookup the result is the
fresh vector holding the comparison of the type tag with `PROMSXP`, and the
protection stack is back to what it was; otherwise the failure of `nameEnv`
is passed on. -/
theorem is_promise_eq (h : Host) (name env : SEXP) :
    is_promise h name env
      = match (nameEnv h name env).1 with
        | Outcome.ok v =>
          (Outcome.ok (SEXP.ref h.heap.length),
           Host.mk (h.heap ++ [Obj.lgl [TYPEOF h v == SEXPTYPE.PROMSXP]]) h.ppstack
             (nameEnv h name env).2.lookups)
        | Outcome.error c =>
          (Outcome.error c,
           Host.mk (h.heap ++ [Obj.lgl [false]]) (SEXP.ref h.heap.length :: h.ppstack)
             (nameEnv h name env).2.lookups)
        | Outcome.undefined =>
          (Outcome.undefined,
           Host.mk (h.heap ++ [Obj.lgl [false]]) (SEXP.ref h.heap.length :: h.ppstack)
             (nameEnv h name env).2.lookups) := by
  have hrun : is_promise h name env
      = match nameEnv (entry h) name env with
        | (Outcome.ok v, h2) =>
          (Outcome.ok (SEXP.ref h.heap.length),
            UNPROTECT (SET_LOGICAL h2 (SEXP.ref h.heap.length) 0
              (TYPEOF h2 v == SEXPTYPE.PROMSXP)) 1)
        | (Outcome.error c, h2) => (Outcome.error c, h2)
        | (Outcome.undefined, h2) => (Outcome.undefined, h2) := rfl
  rw [hrun, nameEnv_entry]
  cases hr : (nameEnv h name env).1 with
  | ok v =>
    have ht := isPromise_grow h
      (Host.mk (h.heap ++ [Obj.lgl [false]]) (SEXP.ref h.heap.length :: h.ppstack)
        (nameEnv h name env).2.lookups) [false] rfl v
    simp only [ht]
    simp [SET_LOGICAL, deref, UNPROTECT]
  | error c => rfl
  | undefined => rfl

/-- Closed form of `promise_was_forced`: on a successful lookup of a promise
the result is the fresh vector holding the comparison of the cached-result
slot with `R_UnboundValue`; on a successful lookup of any other object the
slot read is undefined; otherwise the failure of `nameEnv` is passed on. -/
theorem promise_was_forced_eq (h : Host) (name env : SEXP) :
    promise_was_forced h name env
      = match (nameEnv h name env).1 with
        | Outcome.ok v =>
          match PRVALUE h v with
          | some slot =>
            (Outcome.ok (SEXP.ref h.heap.length),
             Host.mk (h.heap ++ [Obj.lgl [slot != SEXP.R_UnboundValue]]) h.ppstack
               (nameEnv h name env).2.lookups)
          | none =>
            (Outcome.undefined,
             Host.mk (h.heap ++ [Obj.lgl [false]]) (SEXP.ref h.heap.length :: h.ppstack)
               (nameEnv h name env).2.lookups)
        | Outcome.error c =>
          (Outcome.error c,
           Host.mk (h.heap ++ [Obj.lgl [false]]) (SEXP.ref h.heap.length :: h.ppstack)
             (nameEnv h name env).2.lookups)
        | Outcome.undefined =>
          (Outcome.undefined,
           Host.mk (h.heap ++ [Obj.lgl [false]]) (SEXP.ref h.heap.length :: h.ppstack)
             (nameEnv h name env).2.lookups) := by
  have hrun : promise_was_forced h name env
      = match nameEnv (entry h) name env with
        | (Outcome.ok v, h2) =>
          match PRVALUE h2 v with
          | some slot =>
            (Outcome.ok (SEXP.ref h.heap.length),
              UNPROTECT (SET_LOGICAL h2 (SEXP.ref h.heap.length) 0
                (slot != SEXP.R_UnboundValue)) 1)
          | none => (Outcome.undefined, h2)
        | (Outcome.error c, h2) => (Outcome.error c, h2)
        | (Outcome.undefined, h2) => (Outcome.undefined, h2) := rfl
  rw [hrun, nameEnv_entry]
  cases hr : (nameEnv h name env).1 with
  | ok v =>
    have ht := PRVALUE_grow h
      (Host.mk (h.heap ++ [Obj.lgl [false]]) (SEXP.ref h.heap.length :: h.ppstack)
        (nameEnv h name env).2.lookups) [false] rfl v
    simp only [ht]
    cases PRVALUE h v with
    | some slot => simp [SET_LOGICAL, deref, UNPROTECT]
    | none => rfl
  | error c => rfl
  | undefined => rfl

/-- What the caller of `is_promise` sees. -/
theorem observe_is_promise (h : Host) (name env : SEXP) :
    observe (is_promise h name env)
      = match (nameEnv h name env).1 with
        | Outcome.ok v => Outcome.ok (some (TYPEOF h v == SEXPTYPE.PROMSXP))
        | Outcome.error c => Outcome.error c
        | Outcome.undefined => Outcome.undefined := by
  rw [is_promise_eq]
  cases (nameEnv h name env).1 <;> simp [observe, LOGICAL0, deref]

/-- What the caller of `promise_was_forced` sees. -/
theorem observe_promise_was_forced (h : Host) (name env : SEXP) :
    observe (promise_was_forced h name env)
      = match (nameEnv h name env).1 with
        | Outcome.ok v =>
          match PRVALUE h v with
          | some slot => Outcome.ok (some (slot != SEXP.R_UnboundValue))
          | none => Outcome.undefined
        | Outcome.error c => Outcome.error c
        | Outcome.undefined => Outcome.undefined := by
  rw [promise_was_forced_eq]
  cases (nameEnv h name env).1 with
  | ok v =>
    dsimp only
    cases hp : PRVALUE h v with
    | some slot => simp [observe, LOGICAL0, deref]
    | none => simp [observe]
  | error c => simp [observe]
  | undefined => simp [observe]

theorem nameEnv_of_symbol_env (h : Host) (name env : SEXP)
    (hs : isSymbol h name = true) (he : isEnvironment h env = true) :
    nameEnv h name env = findVar h name env := by
  simp [nameEnv, hs, he, length_of_isSymbol h name hs]

theorem PRVALUE_eq_none_iff (h : Host) (x : SEXP) :
    PRVALUE h x = none ↔ TYPEOF h x ≠ SEXPTYPE.PROMSXP := by
  unfold PRVALUE TYPEOF
  cases deref h x <;> simp

theorem PRVALUE_of_prom (h : Host) (x slot expr penv : SEXP)
    (hp : deref h x = Obj.prom slot expr penv) : PRVALUE h x = some slot := by
  simp [PRVALUE, hp]

/-! ## Lemmas on the lookup -/

theorem findVarInFrame_eq_none_iff (frame : Frame) (symbol : SEXP) :
    findVarInFrame frame symbol = none ↔ ∀ w, (symbol, w) ∉ frame := by
  induction frame with
  | nil => simp [findVarInFrame]
  | cons b rest ih =>
    obtain ⟨tag, value⟩ := b
    by_cases ht : tag = symbol
    · subst ht
      simp only [findVarInFrame, if_true]
      constructor
      · intro hc
        cases hc
      · intro hall
        exact absurd (List.mem_cons_self _ _) (hall value)
    · simp only [findVarInFrame, ht, if_false, ih]
      constructor
      · intro hall w hm
        rcases List.mem_cons.mp hm with heq | hin
        · exact ht (Prod.mk.inj heq).1.symm
        · exact hall w hin
      · intro hall w hin
        exact hall w (List.mem_cons_of_mem _ hin)

/-- The first entry of a variable table for a symbol is the one the lookup
returns. -/
theorem findVarInFrame_first (before after : Frame) (symbol value : SEXP)
    (hbefore : ∀ w, (symbol, w) ∉ before) :
    findVarInFrame (before ++ (symbol, value) :: after) symbol = some value := by
  induction before with
  | nil => simp [findVarInFrame]
  | cons b rest ih =>
    obtain ⟨tag, w⟩ := b
    have hne : tag ≠ symbol := by
      intro ht
      subst ht
      exact hbefore w (List.mem_cons_self _ _)
    simp only [List.cons_append, findVarInFrame, hne, if_false]
    exact ih (fun u hu => hbefore u (List.mem_cons_of_mem _ hu))

theorem findVarLoop_eq_none_iff (chain : List Frame) (symbol : SEXP) :
    findVarLoop chain symbol = none ↔ ∀ frame ∈ chain, ∀ w, (symbol, w) ∉ frame := by
  induction chain with
  | nil => simp [findVarLoop]
  | cons f rest ih =>
    cases hf : findVarInFrame f symbol with
    | some value =>
      simp only [findVarLoop, hf]
      constructor
      · intro hc
        cases hc
      · intro hall
        have hnone := (findVarInFrame_eq_none_iff f symbol).mpr (hall f (List.mem_cons_self _ _))
        rw [hf] at hnone
        cases hnone
    | none =>
      simp only [findVarLoop, hf, ih]
      have hf2 := (findVarInFrame_eq_none_iff f symbol).mp hf
      constructor
      · intro hall g hg
        rcases List.mem_cons.mp hg with heq | hin
        · subst heq
          exact hf2
        · exact hall g hin
      · intro hall g hg
        exact hall g (List.mem_cons_of_mem _ hg)

theorem findVarLoop_skip (pre rest : List Frame) (symbol : SEXP)
    (hpre : ∀ frame ∈ pre, ∀ w, (symbol, w) ∉ frame) :
    findVarLoop (pre ++ rest) symbol = findVarLoop rest symbol := by
  induction pre with
  | nil => rfl
  | cons g pre ih =>
    have hg := (findVarInFrame_eq_none_iff g symbol).mpr (hpre g (List.mem_cons_self _ _))
    simp only [List.cons_append, findVarLoop, hg]
    exact ih (fun f hf => hpre f (List.mem_cons_of_mem _ hf))

/-! ## Failures and the lookup count of the exported functions -/

theorem is_promise_error_iff (h : Host) (name env : SEXP) (c : RCondition) :
    (is_promise h name env).1 = Outcome.error c ↔ (nameEnv h name env).1 = Outcome.error c := by
  rw [is_promise_eq]
  cases (nameEnv h name env).1 <;> simp

theorem promise_was_forced_error_iff (h : Host) (name env : SEXP) (c : RCondition) :
    (promise_was_forced h name env).1 = Outcome.error c
      ↔ (nameEnv h name env).1 = Outcome.error c := by
  rw [promise_was_forced_eq]
  cases (nameEnv h name env).1 with
  | ok v =>
    dsimp only
    cases PRVALUE h v <;> simp
  | error d => simp
  | undefined => simp

theorem is_promise_lookups (h : Host) (name env : SEXP) :
    (is_promise h name env).2.lookups = (nameEnv h name env).2.lookups := by
  rw [is_promise_eq]
  cases (nameEnv h name env).1 <;> rfl

theorem promise_was_forced_lookups (h : Host) (name env : SEXP) :
    (promise_was_forced h name env).2.lookups = (nameEnv h name env).2.lookups := by
  rw [promise_was_forced_eq]
  cases (nameEnv h name env).1 with
  | ok v =>
    dsimp only
    cases PRVALUE h v <;> rfl
  | error d => rfl
  | undefined => rfl

/-- The outcome of `nameEnv` is the failure of the environment check exactly
when the name passed its check and the environment did not. -/
theorem nameEnv_error_env_iff (h : Host) (name env : SEXP) :
    (nameEnv h name env).1
        = Outcome.error (RCondition.InvalidArgument "env should be an environment")
      ↔ (isSymbol h name = true ∧ length h name = 1 ∧ isEnvironment h env = false) := by
  by_cases hgood : isSymbol h name = true ∧ length h name = 1
  · obtain ⟨hs, hl⟩ := hgood
    cases he : isEnvironment h env with
    | false =>
      rw [nameEnv_of_bad_env h name env hs hl he]
      simp [hs, hl]
    | true =>
      obtain ⟨frame, enclos, hd⟩ := (isEnvironment_iff h env).mp he
      rw [nameEnv_of_env h name env frame enclos hs hd]
      cases findVarLoop (frame :: enclos) name <;> simp
  · rw [nameEnv_of_bad_name h name env hgood]
    constructor
    · intro hc
      have hm := RCondition.InvalidArgument.inj (Outcome.error.inj hc)
      exact absurd hm (by decide)
    · rintro ⟨hs, hl, _⟩
      exact absurd ⟨hs, hl⟩ hgood

/-! ## Result of the two queries -/

/-- C1: for a symbol `N` and an environment `E` such that the lookup of `N`
through `E` and its enclosing scopes finds an object `v`, `is_promise`
returns a one-element logical that is true if and only if the type tag of
`v` is `PROMSXP`; in particular it is false when `v` is any other kind of
object (an ordinary value, a function). -/
theorem is_promise_true_iff_promsxp (h : Host) (N E v : SEXP)
    (hN : isSymbol h N = true) (hE : isEnvironment h E = true)
    (hv : (findVar h N E).1 = Outcome.ok v) :
    ∃ b, observe (is_promise h N E) = Outcome.ok (some b) ∧
      (b = true ↔ TYPEOF h v = SEXPTYPE.PROMSXP) ∧
      (TYPEOF h v ≠ SEXPTYPE.PROMSXP → b = false) := by
  refine ⟨TYPEOF h v == SEXPTYPE.PROMSXP, ?_, ?_, ?_⟩
  · rw [observe_is_promise, nameEnv_of_symbol_env h N E hN hE, hv]
  · simp
  · intro hne
    simp [hne]

/-- Instance of C1 on the sample heap: `z` is bound to a function in the
enclosing scope only. -/
theorem is_promise_true_iff_promsxp_witness :
    isSymbol sampleHost (SEXP.ref 2) = true ∧
    isEnvironment sampleHost (SEXP.ref 8) = true ∧
    (findVar sampleHost (SEXP.ref 2) (SEXP.ref 8)).1 = Outcome.ok (SEXP.ref 6) ∧
    ∃ b, observe (is_promise sampleHost (SEXP.ref 2) (SEXP.ref 8)) = Outcome.ok (some b) ∧
      (b = true ↔ TYPEOF sampleHost (SEXP.ref 6) = SEXPTYPE.PROMSXP) ∧
      (TYPEOF sampleHost (SEXP.ref 6) ≠ SEXPTYPE.PROMSXP → b = false) :=
  ⟨by decide, by decide, by decide,
    is_promise_true_iff_promsxp sampleHost (SEXP.ref 2) (SEXP.ref 8) (SEXP.ref 6)
      (by decide) (by decide) (by decide)⟩

/-- C2: for a symbol `N` and an environment `E` in which `N` resolves to a
promise `p`, `promise_was_forced` returns a one-element logical that is
true if and only if the cached-result slot of `p` is not `R_UnboundValue`;
so for a promise whose slot still holds `R_UnboundValue`, `is_promise`
returns true and `promise_was_forced` returns false. -/
theorem promise_was_forced_true_iff_slot_set (h : Host) (N E p slot expr penv : SEXP)
    (hN : isSymbol h N = true) (hE : isEnvironment h E = true)
    (hp : (findVar h N E).1 = Outcome.ok p)
    (hprom : deref h p = Obj.prom slot expr penv) :
    (∃ b, observe (promise_was_forced h N E) = Outcome.ok (some b) ∧
      (b = true ↔ slot ≠ SEXP.R_UnboundValue)) ∧
    (slot = SEXP.R_UnboundValue →
      observe (is_promise h N E) = Outcome.ok (some true) ∧
      observe (promise_was_forced h N E) = Outcome.ok (some false)) := by
  have hpw : observe (promise_was_forced h N E)
      = Outcome.ok (some (slot != SEXP.R_UnboundValue)) := by
    rw [observe_promise_was_forced, nameEnv_of_symbol_env h N E hN hE, hp]
    simp [PRVALUE_of_prom h p slot expr penv hprom]
  have hip : observe (is_promise h N E) = Outcome.ok (some true) := by
    rw [observe_is_promise, nameEnv_of_symbol_env h N E hN hE, hp]
    simp [TYPEOF, hprom]
  refine ⟨⟨slot != SEXP.R_UnboundValue, hpw, by simp⟩, ?_⟩
  intro hs
  refine ⟨hip, ?_⟩
  rw [hpw, hs]
  rfl

/-- Instance of C2 on the sample heap: `x` is bound to a promise that has
not been evaluated. -/
theorem promise_was_forced_true_iff_slot_set_witness :
    deref sampleHost (SEXP.ref 4)
        = Obj.prom SEXP.R_UnboundValue (SEXP.ref 0) (SEXP.ref 7) ∧
    ((∃ b, observe (promise_was_forced sampleHost (SEXP.ref 0) (SEXP.ref 8))
          = Outcome.ok (some b) ∧
        (b = true ↔ SEXP.R_UnboundValue ≠ SEXP.R_UnboundValue)) ∧
      (SEXP.R_UnboundValue = SEXP.R_UnboundValue →
        observe (is_promise sampleHost (SEXP.ref 0) (SEXP.ref 8)) = Outcome.ok (some true) ∧
        observe (promise_was_forced sampleHost (SEXP.ref 0) (SEXP.ref 8))
          = Outcome.ok (some false))) :=
  ⟨by decide,
    promise_was_forced_true_iff_slot_set sampleHost (SEXP.ref 0) (SEXP.ref 8) (SEXP.ref 4)
      SEXP.R_UnboundValue (SEXP.ref 0) (SEXP.ref 7)
      (by decide) (by decide) (by decide) (by decide)⟩

/-! ## Argument checks -/

/-- C3: when `name` is not a single symbol, whatever `env` is, both
`is_promise` and `promise_was_forced` fail with the `InvalidArgument`
condition whose message is "name is not a single symbol", and the number of
`findVar` calls is what it was before the call: the lookup is not reached. -/
theorem bad_name_fails_before_lookup (h : Host) (name env : SEXP)
    (hbad : ¬ (isSymbol h name = true ∧ length h name = 1)) :
    (is_promise h name env).1
        = Outcome.error (RCondition.InvalidArgument "name is not a single symbol") ∧
    (promise_was_forced h name env).1
        = Outcome.error (RCondition.InvalidArgument "name is not a single symbol") ∧
    (is_promise h name env).2.lookups = h.lookups ∧
    (promise_was_forced h name env).2.lookups = h.lookups := by
  have hn := nameEnv_of_bad_name h name env hbad
  refine ⟨?_, ?_, ?_, ?_⟩
  · rw [is_promise_error_iff, hn]
  · rw [promise_was_forced_error_iff, hn]
  · rw [is_promise_lookups, hn]
  · rw [promise_was_forced_lookups, hn]

/-- Instance of C3 on the sample heap: the name is a list of two symbols
and the environment is valid. -/
theorem bad_name_fails_before_lookup_witness :
    ¬ (isSymbol sampleHost (SEXP.ref 10) = true ∧ length sampleHost (SEXP.ref 10) = 1) ∧
    (is_promise sampleHost (SEXP.ref 10) (SEXP.ref 8)).1
        = Outcome.error (RCondition.InvalidArgument "name is not a single symbol") ∧
    (promise_was_forced sampleHost (SEXP.ref 10) (SEXP.ref 8)).1
        = Outcome.error (RCondition.InvalidArgument "name is not a single symbol") ∧
    (is_promise sampleHost (SEXP.ref 10) (SEXP.ref 8)).2.lookups = sampleHost.lookups ∧
    (promise_was_forced sampleHost (SEXP.ref 10) (SEXP.ref 8)).2.lookups
        = sampleHost.lookups :=
  ⟨by decide,
    bad_name_fails_before_lookup sampleHost (SEXP.ref 10) (SEXP.ref 8) (by decide)⟩

/-- C4: when `env` is not an environment, whatever `name` is, both
`is_promise` and `promise_was_forced` fail with an `InvalidArgument`
condition and return no result; when `name` is a single symbol the message
is "env should be an environment". -/
theorem bad_env_fails (h : Host) (name env : SEXP)
    (henv : isEnvironment h env = false) :
    ∃ message,
      (is_promise h name env).1 = Outcome.error (RCondition.InvalidArgument message) ∧
      (promise_was_forced h name env).1
        = Outcome.error (RCondition.InvalidArgument message) ∧
      (isSymbol h name = true ∧ length h name = 1 →
        message = "env should be an environment") := by
  by_cases hgood : isSymbol h name = true ∧ length h name = 1
  · have hn := nameEnv_of_bad_env h name env hgood.1 hgood.2 henv
    refine ⟨"env should be an environment", ?_, ?_, fun _ => rfl⟩
    · rw [is_promise_error_iff, hn]
    · rw [promise_was_forced_error_iff, hn]
  · have hn := nameEnv_of_bad_name h name env hgood
    refine ⟨"name is not a single symbol", ?_, ?_, fun hg => absurd hg hgood⟩
    · rw [is_promise_error_iff, hn]
    · rw [promise_was_forced_error_iff, hn]

/-- Instance of C4 on the sample heap: the name is the symbol `x` and the
environment argument is an integer vector. -/
theorem bad_env_fails_witness :
    isEnvironment sampleHost (SEXP.ref 3) = false ∧
    ∃ message,
      (is_promise sampleHost (SEXP.ref 0) (SEXP.ref 3)).1
        = Outcome.error (RCondition.InvalidArgument message) ∧
      (promise_was_forced sampleHost (SEXP.ref 0) (SEXP.ref 3)).1
        = Outcome.error (RCondition.InvalidArgument message) ∧
      (isSymbol sampleHost (SEXP.ref 0) = true ∧ length sampleHost (SEXP.ref 0) = 1 →
        message = "env should be an environment") :=
  ⟨by decide, bad_env_fails sampleHost (SEXP.ref 0) (SEXP.ref 3) (by decide)⟩

/-- C10: the two checks of `nameEnv` are ordered, name first.  When `name`
is not a single symbol and `env` is not an environment, both functions fail
with the message "name is not a single symbol" and not with "env should be
an environment"; and each function fails with the message "env should be an
environment" exactly when `name` is a single symbol and `env` is not an
environment. -/
theorem name_check_precedes_env_check (h : Host) (name env : SEXP) :
    (¬ (isSymbol h name = true ∧ length h name = 1) → isEnvironment h env = false →
      (is_promise h name env).1
          = Outcome.error (RCondition.InvalidArgument "name is not a single symbol") ∧
      (promise_was_forced h name env).1
          = Outcome.error (RCondition.InvalidArgument "name is not a single symbol") ∧
      (is_promise h name env).1
          ≠ Outcome.error (RCondition.InvalidArgument "env should be an environment") ∧
      (promise_was_forced h name env).1
          ≠ Outcome.error (RCondition.InvalidArgument "env should be an environment")) ∧
    ((is_promise h name env).1
        = Outcome.error (RCondition.InvalidArgument "env should be an environment")
      ↔ (isSymbol h name = true ∧ length h name = 1 ∧ isEnvironment h env = false)) ∧
    ((promise_was_forced h name env).1
        = Outcome.error (RCondition.InvalidArgument "env should be an environment")
      ↔ (isSymbol h name = true ∧ length h name = 1 ∧ isEnvironment h env = false)) := by
  have hi := is_promise_error_iff h name env
    (RCondition.InvalidArgument "env should be an environment")
  have hp := promise_was_forced_error_iff h name env
    (RCondition.InvalidArgument "env should be an environment")
  have hne := nameEnv_error_env_iff h name env
  refine ⟨?_, hi.trans hne, hp.trans hne⟩
  intro hbad _
  have hn := nameEnv_of_bad_name h name env hbad
  refine ⟨?_, ?_, ?_, ?_⟩
  · rw [is_promise_error_iff, hn]
  · rw [promise_was_forced_error_iff, hn]
  · intro hc
    exact hbad ⟨((hi.trans hne).mp hc).1, ((hi.trans hne).mp hc).2.1⟩
  · intro hc
    exact hbad ⟨((hp.trans hne).mp hc).1, ((hp.trans hne).mp hc).2.1⟩

/-- Instance of C10 on the sample heap: the name is a character string and
the environment argument is an integer vector. -/
theorem name_check_precedes_env_check_witness :
    ¬ (isSymbol sampleHost (SEXP.ref 9) = true ∧ length sampleHost (SEXP.ref 9) = 1) ∧
    isEnvironment sampleHost (SEXP.ref 3) = false ∧
    (is_promise sampleHost (SEXP.ref 9) (SEXP.ref 3)).1
        = Outcome.error (RCondition.InvalidArgument "name is not a single symbol") ∧
    (promise_was_forced sampleHost (SEXP.ref 9) (SEXP.ref 3)).1
        = Outcome.error (RCondition.InvalidArgument "name is not a single symbol") :=
  ⟨by decide, by decide,
    ((name_check_precedes_env_check sampleHost (SEXP.ref 9) (SEXP.ref 3)).1
      (by decide) (by decide)).1,
    ((name_check_precedes_env_check sampleHost (SEXP.ref 9) (SEXP.ref 3)).1
      (by decide) (by decide)).2.1⟩

/-! ## The lookup -/

/-- C5: for a symbol `N` and an environment `E` such that neither the
variable table of `E` nor that of any enclosing environment binds `N`, both
`is_promise` and `promise_was_forced` fail with the `NameNotFound`
condition of the lookup, passed on unchanged; neither returns a logical. -/
theorem unbound_name_fails_name_not_found (h : Host) (N E : SEXP)
    (frame : Frame) (enclos : List Frame)
    (hN : isSymbol h N = true) (hE : deref h E = Obj.env frame enclos)
    (hunbound : ∀ f ∈ frame :: enclos, ∀ w, (N, w) ∉ f) :
    (is_promise h N E).1 = Outcome.error (RCondition.NameNotFound N) ∧
    (promise_was_forced h N E).1 = Outcome.error (RCondition.NameNotFound N) ∧
    (findVar h N E).1 = Outcome.error (RCondition.NameNotFound N) := by
  have hnone := (findVarLoop_eq_none_iff (frame :: enclos) N).mpr hunbound
  have hn : (nameEnv h N E).1 = Outcome.error (RCondition.NameNotFound N) := by
    rw [nameEnv_of_env h N E frame enclos hN hE, hnone]
  have he : isEnvironment h E = true := (isEnvironment_iff h E).mpr ⟨frame, enclos, hE⟩
  refine ⟨?_, ?_, ?_⟩
  · rw [is_promise_error_iff, hn]
  · rw [promise_was_forced_error_iff, hn]
  · rw [← nameEnv_of_symbol_env h N E hN he, hn]

/-- Instance of C5 on the sample heap: the symbol `w` is bound neither in
the local environment nor in its enclosing environment. -/
theorem unbound_name_fails_name_not_found_witness :
    isSymbol sampleHost (SEXP.ref 11) = true ∧
    (is_promise sampleHost (SEXP.ref 11) (SEXP.ref 8)).1
      = Outcome.error (RCondition.NameNotFound (SEXP.ref 11)) ∧
    (promise_was_forced sampleHost (SEXP.ref 11) (SEXP.ref 8)).1
      = Outcome.error (RCondition.NameNotFound (SEXP.ref 11)) ∧
    (findVar sampleHost (SEXP.ref 11) (SEXP.ref 8)).1
      = Outcome.error (RCondition.NameNotFound (SEXP.ref 11)) :=
  ⟨by decide,
    unbound_name_fails_name_not_found sampleHost (SEXP.ref 11) (SEXP.ref 8)
      [(SEXP.ref 0, SEXP.ref 4), (SEXP.ref 1, SEXP.ref 3)]
      [[(SEXP.ref 1, SEXP.ref 5), (SEXP.ref 2, SEXP.ref 6)]]
      (by decide) (by decide) (by simp)⟩

/-- C8: the lookup follows the chain of enclosing environments with normal
scoping.  When the chain of `E` splits into scopes `pre` that do not bind
`N`, a scope whose first entry for `N` binds it to `v`, and the remaining
scopes `post` (which may bind `N` again), the object that `nameEnv` returns
and that `is_promise` and `promise_was_forced` inspect is `v`: a name bound
only in an ancestor is resolved, and a nearer binding shadows a farther
one. -/
theorem lookup_resolves_nearest_binding (h : Host) (N E v : SEXP)
    (frame before after : Frame) (enclos pre post : List Frame)
    (hN : isSymbol h N = true) (hE : deref h E = Obj.env frame enclos)
    (hchain : frame :: enclos = pre ++ (before ++ (N, v) :: after) :: post)
    (hpre : ∀ g ∈ pre, ∀ w, (N, w) ∉ g)
    (hbefore : ∀ w, (N, w) ∉ before) :
    (nameEnv h N E).1 = Outcome.ok v ∧
    observe (is_promise h N E) = Outcome.ok (some (TYPEOF h v == SEXPTYPE.PROMSXP)) ∧
    observe (promise_was_forced h N E)
      = (match PRVALUE h v with
         | some slot => Outcome.ok (some (slot != SEXP.R_UnboundValue))
         | none => Outcome.undefined) := by
  have hfound : findVarLoop (frame :: enclos) N = some v := by
    rw [hchain, findVarLoop_skip pre _ N hpre]
    simp [findVarLoop, findVarInFrame_first before after N v hbefore]
  have hn : (nameEnv h N E).1 = Outcome.ok v := by
    rw [nameEnv_of_env h N E frame enclos hN hE, hfound]
  refine ⟨hn, ?_, ?_⟩
  · rw [observe_is_promise, hn]
  · rw [observe_promise_was_forced, hn]

/-- Instance of C8 on the sample heap: `z` is bound only in the enclosing
environment and is resolved to the function bound there; `y` is bound in
both environments and is resolved to the integer vector of the local one,
not to the promise of the enclosing one. -/
theorem lookup_resolves_nearest_binding_witness :
    ((nameEnv sampleHost (SEXP.ref 2) (SEXP.ref 8)).1 = Outcome.ok (SEXP.ref 6) ∧
      observe (is_promise sampleHost (SEXP.ref 2) (SEXP.ref 8))
        = Outcome.ok (some (TYPEOF sampleHost (SEXP.ref 6) == SEXPTYPE.PROMSXP)) ∧
      observe (promise_was_forced sampleHost (SEXP.ref 2) (SEXP.ref 8))
        = (match PRVALUE sampleHost (SEXP.ref 6) with
           | some slot => Outcome.ok (some (slot != SEXP.R_UnboundValue))
           | none => Outcome.undefined)) ∧
    ((nameEnv sampleHost (SEXP.ref 1) (SEXP.ref 8)).1 = Outcome.ok (SEXP.ref 3) ∧
      observe (is_promise sampleHost (SEXP.ref 1) (SEXP.ref 8))
        = Outcome.ok (some (TYPEOF sampleHost (SEXP.ref 3) == SEXPTYPE.PROMSXP)) ∧
      observe (promise_was_forced sampleHost (SEXP.ref 1) (SEXP.ref 8))
        = (match PRVALUE sampleHost (SEXP.ref 3) with
           | some slot => Outcome.ok (some (slot != SEXP.R_UnboundValue))
           | none => Outcome.undefined)) :=
  ⟨lookup_resolves_nearest_binding sampleHost (SEXP.ref 2) (SEXP.ref 8) (SEXP.ref 6)
      [(SEXP.ref 0, SEXP.ref 4), (SEXP.ref 1, SEXP.ref 3)]
      [(SEXP.ref 1, SEXP.ref 5)] []
      [[(SEXP.ref 1, SEXP.ref 5), (SEXP.ref 2, SEXP.ref 6)]]
      [[(SEXP.ref 0, SEXP.ref 4), (SEXP.ref 1, SEXP.ref 3)]]
      []
      (by decide) (by decide) (by decide) (by simp) (by simp),
    lookup_resolves_nearest_binding sampleHost (SEXP.ref 1) (SEXP.ref 8) (SEXP.ref 3)
      [(SEXP.ref 0, SEXP.ref 4), (SEXP.ref 1, SEXP.ref 3)]
      [(SEXP.ref 0, SEXP.ref 4)] []
      [[(SEXP.ref 1, SEXP.ref 5), (SEXP.ref 2, SEXP.ref 6)]]
      []
      [[(SEXP.ref 1, SEXP.ref 5), (SEXP.ref 2, SEXP.ref 6)]]
      (by decide) (by decide) (by decide) (by simp) (by simp)⟩

/-! ## The unguarded slot read -/

/-- C9: when `is_promise` returns true for `N` in `E`, the object whose
cached-result slot `promise_was_forced` reads is a promise, so the call
returns a logical and the undefined read is not reached; and when the
lookup finds an object of any other type, `promise_was_forced` reads the
slot all the same, with no check of the type tag, and the read is
undefined. -/
theorem promise_was_forced_defined_iff_promise (h : Host) (N E : SEXP) :
    (observe (is_promise h N E) = Outcome.ok (some true) →
      ∃ p slot, (nameEnv h N E).1 = Outcome.ok p ∧ TYPEOF h p = SEXPTYPE.PROMSXP ∧
        PRVALUE h p = some slot ∧
        (promise_was_forced h N E).1 ≠ Outcome.undefined ∧
        observe (promise_was_forced h N E)
          = Outcome.ok (some (slot != SEXP.R_UnboundValue))) ∧
    (∀ v, (nameEnv h N E).1 = Outcome.ok v → TYPEOF h v ≠ SEXPTYPE.PROMSXP →
      (promise_was_forced h N E).1 = Outcome.undefined) := by
  constructor
  · intro hip
    rw [observe_is_promise] at hip
    cases hn : (nameEnv h N E).1 with
    | ok p =>
      rw [hn] at hip
      have ht : TYPEOF h p = SEXPTYPE.PROMSXP := by simpa using hip
      cases hslot : PRVALUE h p with
      | none => exact absurd ht ((PRVALUE_eq_none_iff h p).mp hslot)
      | some slot =>
        refine ⟨p, slot, rfl, ht, hslot, ?_, ?_⟩
        · rw [promise_was_forced_eq, hn]
          simp [hslot]
        · rw [observe_promise_was_forced, hn]
          simp [hslot]
    | error c =>
      rw [hn] at hip
      cases hip
    | undefined =>
      rw [hn] at hip
      cases hip
  · intro v hn hne
    have hslot := (PRVALUE_eq_none_iff h v).mpr hne
    rw [promise_was_forced_eq, hn]
    simp [hslot]

/-- Instance of C9 on the sample heap: `x` is bound to a promise, and `y`
is bound in the local environment to an integer vector. -/
theorem promise_was_forced_defined_iff_promise_witness :
    observe (is_promise sampleHost (SEXP.ref 0) (SEXP.ref 8)) = Outcome.ok (some true) ∧
    (∃ p slot, (nameEnv sampleHost (SEXP.ref 0) (SEXP.ref 8)).1 = Outcome.ok p ∧
        TYPEOF sampleHost p = SEXPTYPE.PROMSXP ∧
        PRVALUE sampleHost p = some slot ∧
        (promise_was_forced sampleHost (SEXP.ref 0) (SEXP.ref 8)).1 ≠ Outcome.undefined ∧
        observe (promise_was_forced sampleHost (SEXP.ref 0) (SEXP.ref 8))
          = Outcome.ok (some (slot != SEXP.R_UnboundValue))) ∧
    (promise_was_forced sampleHost (SEXP.ref 1) (SEXP.ref 8)).1 = Outcome.undefined :=
  ⟨by decide,
    (promise_was_forced_defined_iff_promise sampleHost (SEXP.ref 0) (SEXP.ref 8)).1
      (by decide),
    (promise_was_forced_defined_iff_promise sampleHost (SEXP.ref 1) (SEXP.ref 8)).2
      (SEXP.ref 3) (by decide) (by decide)⟩

/-! ## Frame of the two queries -/

theorem is_promise_heap (h : Host) (name env : SEXP) :
    ∃ xs, (is_promise h name env).2.heap = h.heap ++ [Obj.lgl xs] := by
  rw [is_promise_eq]
  cases (nameEnv h name env).1 <;> exact ⟨_, rfl⟩

theorem promise_was_forced_heap (h : Host) (name env : SEXP) :
    ∃ xs, (promise_was_forced h name env).2.heap = h.heap ++ [Obj.lgl xs] := by
  rw [promise_was_forced_eq]
  cases (nameEnv h name env).1 with
  | ok v =>
    dsimp only
    cases PRVALUE h v <;> exact ⟨_, rfl⟩
  | error c => exact ⟨_, rfl⟩
  | undefined => exact ⟨_, rfl⟩

/-- A query made after one logical vector was appended to the heap sees
what it would have seen before. -/
theorem observe_is_promise_grow (h k : Host) (xs : List Bool)
    (hk : k.heap = h.heap ++ [Obj.lgl xs]) (name env : SEXP) :
    observe (is_promise k name env) = observe (is_promise h name env) := by
  rw [observe_is_promise, observe_is_promise, nameEnv_outcome_grow h k xs hk]
  cases (nameEnv h name env).1 with
  | ok v => simp [isPromise_grow h k xs hk v]
  | error c => rfl
  | undefined => rfl

theorem observe_promise_was_forced_grow (h k : Host) (xs : List Bool)
    (hk : k.heap = h.heap ++ [Obj.lgl xs]) (name env : SEXP) :
    observe (promise_was_forced k name env) = observe (promise_was_forced h name env) := by
  rw [observe_promise_was_forced, observe_promise_was_forced,
    nameEnv_outcome_grow h k xs hk]
  cases (nameEnv h name env).1 with
  | ok v => simp [PRVALUE_grow h k xs hk v]
  | error c => rfl
  | undefined => rfl

/-- C6: `is_promise` and `promise_was_forced` only read the host state.
For every name, environment and host state, after either call every object
of the heap is what it was (so every variable table and every promise, with
its type tag and cached-result slot), no pointer has become or ceased to be
a promise or changed its cached-result slot (no promise is forced), and
every later query, in particular the same one, returns what it would have
returned before the call. -/
theorem queries_are_pure_reads (h : Host) (name env : SEXP) :
    (∀ x, deref h x ≠ Obj.nil →
      deref (is_promise h name env).2 x = deref h x ∧
      deref (promise_was_forced h name env).2 x = deref h x) ∧
    (∀ x,
      PRVALUE (is_promise h name env).2 x = PRVALUE h x ∧
      PRVALUE (promise_was_forced h name env).2 x = PRVALUE h x ∧
      (TYPEOF (is_promise h name env).2 x == SEXPTYPE.PROMSXP)
        = (TYPEOF h x == SEXPTYPE.PROMSXP) ∧
      (TYPEOF (promise_was_forced h name env).2 x == SEXPTYPE.PROMSXP)
        = (TYPEOF h x == SEXPTYPE.PROMSXP)) ∧
    (∀ name2 env2,
      observe (is_promise (is_promise h name env).2 name2 env2)
        = observe (is_promise h name2 env2) ∧
      observe (promise_was_forced (is_promise h name env).2 name2 env2)
        = observe (promise_was_forced h name2 env2) ∧
      observe (is_promise (promise_was_forced h name env).2 name2 env2)
        = observe (is_promise h name2 env2) ∧
      observe (promise_was_forced (promise_was_forced h name env).2 name2 env2)
        = observe (promise_was_forced h name2 env2)) := by
  obtain ⟨xs, hi⟩ := is_promise_heap h name env
  obtain ⟨ys, hp⟩ := promise_was_forced_heap h name env
  refine ⟨?_, ?_, ?_⟩
  · intro x hx
    exact ⟨deref_grow_of_valid h _ xs hi x hx, deref_grow_of_valid h _ ys hp x hx⟩
  · intro x
    exact ⟨PRVALUE_grow h _ xs hi x, PRVALUE_grow h _ ys hp x,
      isPromise_grow h _ xs hi x, isPromise_grow h _ ys hp x⟩
  · intro name2 env2
    exact ⟨observe_is_promise_grow h _ xs hi name2 env2,
      observe_promise_was_forced_grow h _ xs hi name2 env2,
      observe_is_promise_grow h _ ys hp name2 env2,
      observe_promise_was_forced_grow h _ ys hp name2 env2⟩

/-- Instance of C6 on the sample heap: after `promise_was_forced` on `x`
the unforced promise bound to `x` is what it was, and the same call again
returns the same logical. -/
theorem queries_are_pure_reads_witness :
    deref (promise_was_forced sampleHost (SEXP.ref 0) (SEXP.ref 8)).2 (SEXP.ref 4)
      = deref sampleHost (SEXP.ref 4) ∧
    observe (promise_was_forced
        (promise_was_forced sampleHost (SEXP.ref 0) (SEXP.ref 8)).2 (SEXP.ref 0) (SEXP.ref 8))
      = observe (promise_was_forced sampleHost (SEXP.ref 0) (SEXP.ref 8)) :=
  ⟨((queries_are_pure_reads sampleHost (SEXP.ref 0) (SEXP.ref 8)).1
      (SEXP.ref 4) (by decide)).2,
    ((queries_are_pure_reads sampleHost (SEXP.ref 0) (SEXP.ref 8)).2.2
      (SEXP.ref 0) (SEXP.ref 8)).2.2.2⟩

/-! ## Forcing and the host steps -/

theorem valid_of_deref (h : Host) (a : Nat) (hne : deref h (SEXP.ref a) ≠ Obj.nil) :
    a < h.heap.length := by
  by_contra hge
  exact hne (List.getD_eq_default _ _ (Nat.le_of_not_lt hge))

theorem deref_set_of_ne (h : Host) (a : Nat) (o : Obj) (x : SEXP) (hx : x ≠ SEXP.ref a) :
    deref (Host.mk (h.heap.set a o) h.ppstack h.lookups) x = deref h x := by
  cases x with
  | R_NilValue => rfl
  | R_UnboundValue => rfl
  | ref b =>
    have hab : a ≠ b := fun hab => hx (by rw [hab])
    simp [deref, List.getElem?_set, hab]

theorem deref_set_self (h : Host) (a : Nat) (o : Obj) (ha : a < h.heap.length) :
    deref (Host.mk (h.heap.set a o) h.ppstack h.lookups) (SEXP.ref a) = o := by
  simp [deref, List.getElem?_set, ha]

/-- Forcing an unforced promise stores the value in its cached-result
slot. -/
theorem forcePromise_deref_self (h : Host) (p value expr penv : SEXP)
    (hprom : deref h p = Obj.prom SEXP.R_UnboundValue expr penv) :
    deref (forcePromise h p value) p = Obj.prom value expr SEXP.R_NilValue := by
  cases p with
  | R_NilValue => simp [deref] at hprom
  | R_UnboundValue => simp [deref] at hprom
  | ref a =>
    have ha : a < h.heap.length := valid_of_deref h a (by rw [hprom]; simp)
    simp only [forcePromise, hprom, if_true]
    exact deref_set_self h a _ ha

/-- Forcing leaves every object unchanged but an unforced promise. -/
theorem forcePromise_deref_other (h : Host) (q value x : SEXP) (o : Obj)
    (hx : deref h x = o)
    (hstable : ∀ expr penv, o ≠ Obj.prom SEXP.R_UnboundValue expr penv) :
    deref (forcePromise h q value) x = o := by
  cases q with
  | R_NilValue => simpa [forcePromise] using hx
  | R_UnboundValue => simpa [forcePromise] using hx
  | ref a =>
    cases hq : deref h (SEXP.ref a) with
    | prom slot expr penv =>
      by_cases hs : slot = SEXP.R_UnboundValue
      · have hne : x ≠ SEXP.ref a := by
          intro hxa
          rw [hxa, hq, hs] at hx
          exact hstable expr penv hx.symm
        simp only [forcePromise, hq, hs, if_true]
        rw [deref_set_of_ne h a _ x hne]
        exact hx
      · simp only [forcePromise, hq, hs, if_false]
        exact hx
    | _ => simpa [forcePromise, hq] using hx

/-- A host step leaves every object unchanged but an unforced promise. -/
theorem step_deref (h : Host) (act : Action) (x : SEXP) (o : Obj)
    (hx : deref h x = o) (hvalid : o ≠ Obj.nil)
    (hstable : ∀ expr penv, o ≠ Obj.prom SEXP.R_UnboundValue expr penv) :
    deref (step h act) x = o := by
  cases act with
  | force q value => exact forcePromise_deref_other h q value x o hx hstable
  | callIsPromise name env =>
    obtain ⟨xs, hi⟩ := is_promise_heap h name env
    have hv : deref h x ≠ Obj.nil := by rw [hx]; exact hvalid
    rw [← hx]
    exact deref_grow_of_valid h _ xs hi x hv
  | callPromiseWasForced name env =>
    obtain ⟨xs, hi⟩ := promise_was_forced_heap h name env
    have hv : deref h x ≠ Obj.nil := by rw [hx]; exact hvalid
    rw [← hx]
    exact deref_grow_of_valid h _ xs hi x hv

theorem run_deref (actions : List Action) (h : Host) (x : SEXP) (o : Obj)
    (hx : deref h x = o) (hvalid : o ≠ Obj.nil)
    (hstable : ∀ expr penv, o ≠ Obj.prom SEXP.R_UnboundValue expr penv) :
    deref (run h actions) x = o := by
  induction actions generalizing h with
  | nil => exact hx
  | cons act rest ih =>
    exact ih (step h act) (step_deref h act x o hx hvalid hstable)

theorem isSymbol_iff (h : Host) (x : SEXP) :
    isSymbol h x = true ↔ ∃ pname, deref h x = Obj.sym pname := by
  unfold isSymbol TYPEOF
  constructor
  · intro hs
    split at hs <;> simp_all
  · rintro ⟨pname, hd⟩
    simp [hd]

/-- C7: over the host steps (forcing a promise, which stores the result in
the cached-result slot, and calls of the two exported functions): when `N`
resolves in `E` to a promise that has not been evaluated,
`promise_was_forced` returns false; once that promise has been evaluated
to a value, `promise_was_forced` returns true, and it still returns true
after any further sequence of host steps, in particular after any sequence
of `is_promise` and `promise_was_forced` calls on that binding. -/
theorem forced_promise_stays_forced (h : Host) (N E p expr penv value : SEXP)
    (actions : List Action)
    (hN : isSymbol h N = true) (hE : isEnvironment h E = true)
    (hp : (findVar h N E).1 = Outcome.ok p)
    (hprom : deref h p = Obj.prom SEXP.R_UnboundValue expr penv)
    (hvalue : value ≠ SEXP.R_UnboundValue) :
    observe (promise_was_forced h N E) = Outcome.ok (some false) ∧
    observe (promise_was_forced (forcePromise h p value) N E) = Outcome.ok (some true) ∧
    observe (promise_was_forced (run (forcePromise h p value) actions) N E)
      = Outcome.ok (some true) := by
  obtain ⟨pname, hsym⟩ := (isSymbol_iff h N).mp hN
  obtain ⟨frame, enclos, henv⟩ := (isEnvironment_iff h E).mp hE
  have hfound : findVarLoop (frame :: enclos) N = some p := by
    have hn := nameEnv_of_env h N E frame enclos hN henv
    rw [nameEnv_of_symbol_env h N E hN hE] at hn
    rw [hn] at hp
    cases hl : findVarLoop (frame :: enclos) N with
    | none =>
      rw [hl] at hp
      cases hp
    | some w =>
      rw [hl] at hp
      rw [Outcome.ok.inj hp]
  -- the query in any state that still holds the symbol, the environment and
  -- the forced promise
  have key : ∀ k : Host, deref k N = Obj.sym pname → deref k E = Obj.env frame enclos →
      deref k p = Obj.prom value expr SEXP.R_NilValue →
      observe (promise_was_forced k N E) = Outcome.ok (some true) := by
    intro k hkN hkE hkp
    have hs : isSymbol k N = true := (isSymbol_iff k N).mpr ⟨pname, hkN⟩
    rw [observe_promise_was_forced, nameEnv_of_env k N E frame enclos hs hkE, hfound]
    simp [PRVALUE_of_prom k p value expr SEXP.R_NilValue hkp, hvalue]
  have h0N : deref (forcePromise h p value) N = Obj.sym pname :=
    forcePromise_deref_other h p value N _ hsym (by simp)
  have h0E : deref (forcePromise h p value) E = Obj.env frame enclos :=
    forcePromise_deref_other h p value E _ henv (by simp)
  have h0p := forcePromise_deref_self h p value expr penv hprom
  refine ⟨?_, key _ h0N h0E h0p, ?_⟩
  · rw [observe_promise_was_forced, nameEnv_of_symbol_env h N E hN hE, hp]
    simp [PRVALUE_of_prom h p SEXP.R_UnboundValue expr penv hprom]
  · apply key
    · exact run_deref actions _ N _ h0N (by simp) (by simp)
    · exact run_deref actions _ E _ h0E (by simp) (by simp)
    · exact run_deref actions _ p _ h0p (by simp) (by
        intro e1 e2 hc
        exact hvalue (Obj.prom.inj hc).1)

/-- Instance of C7 on the sample heap: the promise bound to `x` is forced
to the integer vector, then both functions are called on `x`. -/
theorem forced_promise_stays_forced_witness :
    observe (promise_was_forced sampleHost (SEXP.ref 0) (SEXP.ref 8))
      = Outcome.ok (some false) ∧
    observe (promise_was_forced (forcePromise sampleHost (SEXP.ref 4) (SEXP.ref 3))
        (SEXP.ref 0) (SEXP.ref 8)) = Outcome.ok (some true) ∧
    observe (promise_was_forced
        (run (forcePromise sampleHost (SEXP.ref 4) (SEXP.ref 3))
          [Action.callIsPromise (SEXP.ref 0) (SEXP.ref 8),
           Action.callPromiseWasForced (SEXP.ref 0) (SEXP.ref 8),
           Action.callPromiseWasForced (SEXP.ref 0) (SEXP.ref 8)])
        (SEXP.ref 0) (SEXP.ref 8)) = Outcome.ok (some true) :=
  forced_promise_stays_forced sampleHost (SEXP.ref 0) (SEXP.ref 8) (SEXP.ref 4)
    (SEXP.ref 0) (SEXP.ref 7) (SEXP.ref 3)
    [Action.callIsPromise (SEXP.ref 0) (SEXP.ref 8),
     Action.callPromiseWasForced (SEXP.ref 0) (SEXP.ref 8),
     Action.callPromiseWasForced (SEXP.ref 0) (SEXP.ref 8)]
    (by decide) (by decide) (by decide) (by decide) (by decide)

end Cartographer
